import Mathlib

/-!
Verification development for the `ml-zoomcamp-hw` repository
(`ee_data_getter.py` and `ee_data_retriever.py`).

The two scripts are orchestration around a remote geospatial engine
(Google Earth Engine).  We shallowly embed the local control flow and the
band arithmetic exactly as written in the source; the remote primitives
that the scripts merely invoke (server-side vectorization of a raster,
the deterministic pseudorandom column, the pixel contents of the imagery
catalog) appear as explicit parameters of the model, since the scripts
treat them as opaque services.

Modelling conventions:
* dates are integers (days); `pd.Timedelta(days=3)` is the integer 3, and
  `filterDate(start, end)` keeps images whose `system:time_start` lies in
  the half-open interval `[start, end)` (Earth Engine semantics);
* raster bands are functions `Nat → Option ℚ` from pixel ids to values,
  `none` meaning a masked / missing pixel;
* a CSV file on disk is `Option (List Row)`: `none` when no file exists at
  the path (`os.path.isfile` false), `some lines` otherwise;
* `pandas.DataFrame` rows are lists of string cells.
-/

/-- Per-pixel Sentinel-2 surface reflectance values for the bands the
scripts use (B2, B3, B4, B8, B11). -/
structure SentinelPixel where
  b2 : ℚ
  b3 : ℚ
  b4 : ℚ
  b8 : ℚ
  b11 : ℚ

/-- A Sentinel-2 image of the `COPERNICUS/S2_SR_HARMONIZED` collection:
its acquisition time (`system:time_start`, in days on the same axis as the
query dates), its `CLOUDY_PIXEL_PERCENTAGE` metadata property, the region
ids its footprint intersects (for `filterBounds`), and its per-pixel band
data (`none` outside the footprint). -/
structure SentinelImage where
  timeStart : ℚ
  cloudyPixelPercentage : ℚ
  footprint : List Nat
  data : Nat → Option SentinelPixel

/-- Band lookup by Earth Engine band name, as used by `select` and
`normalizedDifference`; unknown names are never used by the scripts. -/
def bandValue (p : SentinelPixel) : String → ℚ
  | "B2" => p.b2
  | "B3" => p.b3
  | "B4" => p.b4
  | "B8" => p.b8
  | "B11" => p.b11
  | _ => 0

/-- `image.select(b)`: the single raster band named `b`. -/
def selectBand (img : SentinelImage) (b : String) : Nat → Option ℚ :=
  fun px => (img.data px).map (fun p => bandValue p b)

/-- `image.normalizedDifference([b1, b2])`: per pixel, `(x - y) / (x + y)`
of the two named bands. -/
def normalizedDifference (img : SentinelImage) (b1 b2 : String) : Nat → Option ℚ :=
  fun px => (img.data px).map (fun p =>
    (bandValue p b1 - bandValue p b2) / (bandValue p b1 + bandValue p b2))

/-- A multiband index image: named single-band rasters, in band order. -/
abbrev IndexImage := List (String × (Nat → Option ℚ))

/-- `calculate_indices` (identical in `ee_data_getter.py` lines 45-59 and
`ee_data_retriever.py` lines 47-60): builds NDVI, EVI, GNDVI, NDWI and
SAVI from the Sentinel-2 image and stacks them with `addBands`.  The two
`expression` strings are embedded as the arithmetic they denote, over the
`select`ed input bands. -/
def calculate_indices (sentinel : SentinelImage) : IndexImage :=
  let ndvi := ("NDVI", normalizedDifference sentinel "B8" "B4")
  let evi := ("EVI", fun px =>
    match selectBand sentinel "B8" px, selectBand sentinel "B4" px,
          selectBand sentinel "B2" px with
    | some b8, some b4, some b2 =>
        some (2.5 * ((b8 - b4) / (b8 + 6 * b4 - 7.5 * b2 + 1)))
    | _, _, _ => none)
  let gndvi := ("GNDVI", normalizedDifference sentinel "B8" "B3")
  let ndwi := ("NDWI", normalizedDifference sentinel "B8" "B11")
  let savi := ("SAVI", fun px =>
    match selectBand sentinel "B8" px, selectBand sentinel "B4" px with
    | some b8, some b4 => some (((b8 - b4) / (b8 + b4 + 0.5)) * 1.5)
    | _, _ => none)
  [ndvi, evi, gndvi, ndwi, savi]

/-- Look a band up by name in an index image. -/
def bandAt (bands : IndexImage) (name : String) : Option (Nat → Option ℚ) :=
  List.lookup name bands

/-- Stable insertion into a list according to a rational sort key
(helper for the embedding of the collection `sort` calls). -/
def insertByKey {α : Type} (key : α → ℚ) (x : α) : List α → List α
  | [] => [x]
  | y :: ys => if key x ≤ key y then x :: y :: ys else y :: insertByKey key x ys

/-- Stable ascending sort by a rational key: the embedding of
`ee.ImageCollection.sort` / `ee.FeatureCollection.sort`. -/
def sortByKey {α : Type} (key : α → ℚ) : List α → List α
  | [] => []
  | x :: xs => insertByKey key x (sortByKey key xs)

/-- The filtered candidate collection of `get_closest_sentinel_image`:
`filterDate(date - 3, date + 3)`, then `filterBounds(geometry)`, then
`filter(ee.Filter.lt('CLOUDY_PIXEL_PERCENTAGE', 10))`. -/
def candidateImages (catalog : List SentinelImage) (geometry : Nat)
    (date : ℤ) : List SentinelImage :=
  ((catalog.filter (fun img =>
      decide ((date : ℚ) - 3 ≤ img.timeStart) &&
      decide (img.timeStart < (date : ℚ) + 3))).filter (fun img =>
      decide (geometry ∈ img.footprint))).filter (fun img =>
      decide (img.cloudyPixelPercentage < 10))

/-- The `logging.warning` message emitted when no Sentinel-2 image is
available in the search window. -/
def noImageWarning : String :=
  "WARNING: No Sentinel-2 image available in the window."

/-- `get_closest_sentinel_image` (`ee_data_getter.py` lines 27-43,
`ee_data_retriever.py` lines 30-45): filter the catalog to a ±3-day
window around the date, to the region, and to cloud percentage `< 10`,
sort ascending by `system:time_start`, and take the first image; when the
collection is empty, log a warning and return `None`.  The second
component is the list of log messages emitted. -/
def get_closest_sentinel_image (catalog : List SentinelImage)
    (geometry : Nat) (date : ℤ) : Option SentinelImage × List String :=
  match (sortByKey (fun img => img.timeStart)
      (candidateImages catalog geometry date)).head? with
  | none => (none, [noImageWarning])
  | some img => (some img, [])

/-- A pandas `DataFrame` flattened to CSV cells: a header of column names
and the data rows. -/
structure DataFrame where
  header : List String
  rows : List (List String)
deriving DecidableEq

/-- `append_to_csv` (`ee_data_getter.py` lines 107-112,
`ee_data_retriever.py` lines 98-103): when no file exists at the path,
`to_csv` writes the header line followed by the rows; otherwise `to_csv`
with `mode='a', header=False` appends the rows after the existing
contents. -/
def append_to_csv (data : DataFrame) (file : Option (List (List String))) :
    Option (List (List String)) :=
  match file with
  | none => some (data.header :: data.rows)
  | some contents => some (contents ++ data.rows)

/-- A feature of an Earth Engine `FeatureCollection`: its feature id
(`f.id()`), its geometry as a set of pixel ids, and its properties.  A
property value is `Option ℚ`; `none` models a null value. -/
structure Feature where
  fid : Nat
  geom : List Nat
  props : List (String × Option ℚ)
deriving DecidableEq

/-- `f.get(k)` flattened: the value of property `k`, `none` when the
property is absent or null. -/
def getProp (f : Feature) (k : String) : Option ℚ :=
  match List.lookup k f.props with
  | some v => v
  | none => none

/-- `f.set(k, v)`: add or overwrite one property. -/
def setProp (f : Feature) (k : String) (v : Option ℚ) : Feature :=
  ⟨f.fid, f.geom, (k, v) :: f.props.filter (fun kv => decide (kv.1 ≠ k))⟩

/-- `f.set(dict)`: set every key/value pair of a dictionary. -/
def setProps (f : Feature) : List (String × Option ℚ) → Feature
  | [] => f
  | kv :: rest => setProps (setProp f kv.1 kv.2) rest

/-- `ee.Reducer.mean()` of one raster band over a geometry, as
`reduceRegion` computes it: the arithmetic mean of the values of the
unmasked pixels inside the geometry, null when no unmasked pixel of the
band lies inside. -/
def bandMean (band : Nat → Option ℚ) (geom : List Nat) : Option ℚ :=
  match geom.filterMap band with
  | [] => none
  | vals => some (vals.sum / vals.length)

/-- `image.reduceRegion(reducer=ee.Reducer.mean(), geometry=..., ...)` on
a multiband image: the dictionary of per-band means. -/
def reduceRegionMean (bands : IndexImage) (geom : List Nat) :
    List (String × Option ℚ) :=
  bands.map (fun nb => (nb.1, bandMean nb.2 geom))

/-- `compute_field_stats` (`ee_data_getter.py` lines 70-74,
`ee_data_retriever.py` lines 81-85): reduce the (index) image to per-band
means over the geometry of the field and set them on the field. -/
def compute_field_stats (bands : IndexImage) (field : Feature) : Feature :=
  setProps field (reduceRegionMean bands field.geom)

/-- `image.updateMask(mask)`: pixels where the mask is false become
masked (`none`). -/
def updateMask (bands : IndexImage) (mask : Nat → Bool) : IndexImage :=
  bands.map (fun nb => (nb.1, fun px => if mask px then nb.2 px else none))

/-- Collect into one list every feature of a mapped collection that
passes `ee.Filter.notNull(['NDVI'])` after `compute_field_stats`: the
shared tail of `get_data_for_fields` and `get_fields_for_county`
(`field_data = fc.map(compute_field_stats)` followed by
`valid_fields = field_data.filter(ee.Filter.notNull(['NDVI']))`). -/
def validFieldsOf (bands : IndexImage) (fc : List Feature) : List Feature :=
  (fc.map (compute_field_stats bands)).filter (fun f => (getProp f "NDVI").isSome)

/-- Cell serialization used when `ee_to_pandas` / `to_csv` flattens a
property value (a fixed textual form; no claim depends on the digits). -/
def cellOf : Option ℚ → String
  | none => ""
  | some q => toString q.num ++ "/" ++ toString q.den

/-- One pandas row of `ee_to_pandas`: the properties of the feature
followed by its geometry (`{**f['properties'], 'geometry': f['geometry']}`). -/
def featureRow (f : Feature) : List String :=
  f.props.map (fun kv => cellOf kv.2) ++
    [String.intercalate "," (f.geom.map (fun px => toString px))]

/-- `ee_to_pandas`: the feature collection flattened to a `DataFrame`,
one row per feature, column order taken from the first feature. -/
def ee_to_pandas (fc : List Feature) : DataFrame :=
  ⟨((fc.head?.map (fun f => f.props.map Prod.fst)).getD []) ++ ["geometry"],
    fc.map featureRow⟩

/-- `df[name] = val`: add one constant column at the end of the frame. -/
def withColumn (df : DataFrame) (name val : String) : DataFrame :=
  ⟨df.header ++ [name], df.rows.map (fun r => r ++ [val])⟩

/-- `get_data_for_fields` (`ee_data_getter.py` lines 61-84): select the
image, compute the indices, reduce them to per-field means, keep the
fields with non-null NDVI and flatten to a `DataFrame`; when no image is
available, return the empty `pd.DataFrame()`.  The second component is
the log. -/
def get_data_for_fields (catalog : List SentinelImage)
    (field_boundary_fc : List Feature) (fcGeometry : Nat) (date : ℤ) :
    DataFrame × List String :=
  match get_closest_sentinel_image catalog fcGeometry date with
  | (none, log) => (DataFrame.mk [] [], log)
  | (some sentinel, log) =>
      (ee_to_pandas (validFieldsOf (calculate_indices sentinel) field_boundary_fc), log)

/-- A region geometry: an id used by the footprint-intersection test of
`filterBounds`, and the pixels it covers. -/
structure Geometry where
  gid : Nat
  pixels : List Nat
deriving DecidableEq

/-- The remote Earth Engine services the scripts call: the Sentinel-2
catalog, the `USDA/NASS/CDL` cropland band of the 2022 image, the
server-side `reduceToVectors` primitive (classified raster and region →
polygon features), and the two deterministic pseudorandom columns that
the two `randomColumn('random')` calls draw (keyed by feature id). -/
structure EEWorld where
  catalog : List SentinelImage
  cdl : Nat → Option ℚ
  vectorize : (Nat → Option ℚ) → List Nat → List Feature
  rand1 : Nat → ℚ
  rand2 : Nat → ℚ

/-- `cdl.clip(county_geom)`: the cropland band restricted to the county. -/
def cdlClipped (w : EEWorld) (cg : Geometry) : Nat → Option ℚ :=
  fun px => if cg.pixels.contains px then w.cdl px else none

/-- `cdl.gt(0)` as a mask: true on pixels whose cropland value is `> 0`. -/
def cdlMask (w : EEWorld) (cg : Geometry) : Nat → Bool :=
  fun px =>
    match cdlClipped w cg px with
    | some v => decide (0 < v)
    | none => false

/-- `ee_data_retriever.py` lines 75-79: vectorize the clipped cropland
raster into polygons, add a `random` column, sort by it, and set
`field_id` on every feature. -/
def vectorizedFields (w : EEWorld) (cg : Geometry) : List Feature :=
  let fields := (w.vectorize (cdlClipped w cg) cg.pixels).map
    (fun f => setProp f "random" (some (w.rand1 f.fid)))
  (sortByKey (fun f => (getProp f "random").getD 0) fields).map
    (fun f => setProp f "field_id" (some f.fid))

/-- The masked index image of `ee_data_retriever.py` line 73:
`indices.updateMask(cdl.gt(0))`. -/
def maskedIndices (w : EEWorld) (cg : Geometry) (sentinel : SentinelImage) :
    IndexImage :=
  updateMask (calculate_indices sentinel) (cdlMask w cg)

/-- `ee_data_retriever.py` line 89: re-randomize the valid fields, sort
by the `random` column and `limit(200)`. -/
def sampledFields (w : EEWorld) (cg : Geometry) (sentinel : SentinelImage) :
    List Feature :=
  (sortByKey (fun f => (getProp f "random").getD 0)
    ((validFieldsOf (maskedIndices w cg sentinel) (vectorizedFields w cg)).map
      (fun f => setProp f "random" (some (w.rand2 f.fid))))).take 200

/-- `get_fields_for_county` (`ee_data_retriever.py` lines 62-96): select
the image for the county, mask the indices to cropland, vectorize the
cropland into fields, reduce, keep non-null-NDVI fields, subsample to at
most 200, and flatten; when no image is available, return the empty
`pd.DataFrame()`. -/
def get_fields_for_county (w : EEWorld) (cg : Geometry) (date : ℤ) :
    DataFrame × List String :=
  match get_closest_sentinel_image w.catalog cg.gid date with
  | (none, log) => (DataFrame.mk [] [], log)
  | (some sentinel, log) => (ee_to_pandas (sampledFields w cg sentinel), log)

/-- One iteration of the date loop of `main` in `ee_data_getter.py`
(lines 97-105): retrieve the frame for the date and, only when it is not
empty, add the `date` column and append it to the CSV file. -/
def getterStep (catalog : List SentinelImage) (fb : List Feature)
    (fbGeometry : Nat) (date : ℤ) (file : Option (List (List String))) :
    Option (List (List String)) :=
  let df := (get_data_for_fields catalog fb fbGeometry date).1
  if df.rows.isEmpty then file
  else append_to_csv (withColumn df "date" (toString date)) file

/-- The date loop of `main` in `ee_data_getter.py`: fold `getterStep`
over the daily date range, starting from whatever file is on disk. -/
def mainGetter (catalog : List SentinelImage) (fb : List Feature)
    (fbGeometry : Nat) (dates : List ℤ) (file0 : Option (List (List String))) :
    Option (List (List String)) :=
  dates.foldl (fun file date => getterStep catalog fb fbGeometry date file) file0

/-- One iteration of the innermost loop of `main` in
`ee_data_retriever.py` (lines 117-129): retrieve the county frame and,
only when it is not empty, add the `state`, `county` and `date` columns
and append it to the CSV file. -/
def retrieverStep (w : EEWorld) (state county : String) (cg : Geometry)
    (date : ℤ) (file : Option (List (List String))) :
    Option (List (List String)) :=
  let df := (get_fields_for_county w cg date).1
  if df.rows.isEmpty then file
  else append_to_csv
    (withColumn (withColumn (withColumn df "state" state) "county" county)
      "date" (toString date)) file

/-- The driver state of the retriever: the CSV file and the trace of the
iterations performed so far, each recorded as (state, county, date) in
the order the loops visit them. -/
abbrev DriverState := Option (List (List String)) × List (String × String × ℤ)

/-- The innermost loop of `main` in `ee_data_retriever.py`:
`for county in counties.toList(...).getInfo()`. -/
def runCounties (w : EEWorld) (state : String) (date : ℤ) :
    List (String × Geometry) → DriverState → DriverState
  | [], st => st
  | c :: rest, st =>
      runCounties w state date rest
        (retrieverStep w state c.1 c.2 date st.1, st.2 ++ [(state, c.1, date)])

/-- The middle loop of `main` in `ee_data_retriever.py`:
`for date in dates`, running the county loop at each date. -/
def runDates (w : EEWorld) (state : String) (cs : List (String × Geometry)) :
    List ℤ → DriverState → DriverState
  | [], st => st
  | d :: rest, st => runDates w state cs rest (runCounties w state d cs st)

/-- The outer loop of `main` in `ee_data_retriever.py`:
`for state in states`, resolving the counties of the state and running
the date loop. -/
def runStates (w : EEWorld) (countiesOf : String → List (String × Geometry))
    (dates : List ℤ) : List String → DriverState → DriverState
  | [], st => st
  | s :: rest, st => runStates w countiesOf dates rest (runDates w s (countiesOf s) dates st)

/-- `main` of `ee_data_retriever.py` (lines 105-129): the three nested
loops, starting from the file on disk and an empty trace. -/
def mainRetriever (w : EEWorld)
    (countiesOf : String → List (String × Geometry)) (statesL : List String)
    (dates : List ℤ) (file0 : Option (List (List String))) : DriverState :=
  runStates w countiesOf dates statesL (file0, [])

/-- The Corn Belt states (`ee_data_retriever.py` line 25). -/
def statesList : List String := ["Iowa", "Illinois"]

/-- `pd.date_range("2022-06-01", "2022-08-31", freq='W')`
(`ee_data_retriever.py` line 28): the Sundays from 2022-06-05 through
2022-08-28, as day offsets from 2022-06-01. -/
def weeklyDates : List ℤ := [4, 11, 18, 25, 32, 39, 46, 53, 60, 67, 74, 81, 88]

/-- The iteration order the claim asserts for the retriever driver:
states, then for each state its counties, then for each county the
weekly dates.  (Stated from the claim for comparison with the code.) -/
def claimedIterationOrder (countiesOf : String → List (String × Geometry))
    (statesL : List String) (dates : List ℤ) : List (String × String × ℤ) :=
  statesL.flatMap (fun s => (countiesOf s).flatMap (fun c =>
    dates.map (fun d => (s, c.1, d))))

/-- The iteration order the retriever code actually performs: states,
then dates, then counties. -/
def codeIterationOrder (countiesOf : String → List (String × Geometry))
    (statesL : List String) (dates : List ℤ) : List (String × String × ℤ) :=
  statesL.flatMap (fun s => dates.flatMap (fun d =>
    (countiesOf s).map (fun c => (s, c.1, d))))

/-- The pixel value of the band of the given name in an index image,
`none` when the band is absent or the pixel masked. -/
def bandPx (bands : IndexImage) (name : String) (px : Nat) : Option ℚ :=
  match bandAt bands name with
  | some band => band px
  | none => none

/-! ## Concrete instances used by witnesses and counterexamples -/

/-- An image acquired first in the window but cloudier than a later one. -/
def imgEarlyCloudy : SentinelImage := ⟨0, 8, [0], fun _ => none⟩

/-- A later but clearer image in the same window. -/
def imgLateClear : SentinelImage := ⟨1, 2, [0], fun _ => none⟩

/-- A two-image catalog: the earliest qualifying image is not the least
cloudy one. -/
def exCatalog : List SentinelImage := [imgEarlyCloudy, imgLateClear]

/-- A pixel with distinct reflectances for evaluating index formulas. -/
def exPixel : SentinelPixel := ⟨1, 2, 3, 5, 4⟩

/-- A clear image in the window around day 0 carrying `exPixel`
everywhere. -/
def exImage : SentinelImage := ⟨0, 5, [0], fun _ => some exPixel⟩

/-- A one-column, one-row `DataFrame`. -/
def exDF : DataFrame := ⟨["a"], [["1"]]⟩

/-- A world with an empty imagery catalog and no remote data at all. -/
def exWorldEmpty : EEWorld := ⟨[], fun _ => none, fun _ _ => [], fun _ => 0, fun _ => 0⟩

/-- Two counties per state, enough to observe the loop nesting order. -/
def exCounties : String → List (String × Geometry) :=
  fun _ => [("Adair", ⟨0, []⟩), ("Boone", ⟨0, []⟩)]

/-- A one-pixel region geometry. -/
def exGeom : Geometry := ⟨0, [0]⟩

/-- A vectorized field covering the one pixel of `exGeom`. -/
def exFeature : Feature := ⟨0, [0], []⟩

/-- A feature with no geometry and no properties. -/
def exFeature0 : Feature := ⟨0, [], []⟩

/-- A world whose catalog holds `exImage`, whose cropland raster is 1
everywhere, and whose vectorization yields the single field `exFeature`. -/
def exWorld : EEWorld :=
  ⟨[exImage], fun _ => some 1, fun _ _ => [exFeature], fun _ => 0, fun _ => 0⟩

/-- A one-band index image with a fully masked band. -/
def exBand : IndexImage := [("NDVI", fun _ => none)]

/-! ## Helper lemmas -/

theorem insertByKey_ne_nil {α : Type} (key : α → ℚ) (x : α) (l : List α) :
    insertByKey key x l ≠ [] := by
  cases l with
  | nil => simp [insertByKey]
  | cons y ys =>
      simp only [insertByKey]
      split <;> simp

theorem mem_insertByKey {α : Type} {key : α → ℚ} {x a : α} {l : List α} :
    a ∈ insertByKey key x l ↔ a = x ∨ a ∈ l := by
  induction l with
  | nil => simp [insertByKey]
  | cons y ys ih =>
      simp only [insertByKey]
      split
      · simp [List.mem_cons]
      · simp [List.mem_cons, ih]
        tauto

theorem mem_sortByKey {α : Type} {key : α → ℚ} {a : α} {l : List α} :
    a ∈ sortByKey key l ↔ a ∈ l := by
  induction l with
  | nil => simp [sortByKey]
  | cons x xs ih => simp [sortByKey, mem_insertByKey, ih, List.mem_cons]

theorem head?_mem {α : Type} {l : List α} {a : α} (h : l.head? = some a) :
    a ∈ l := by
  cases l with
  | nil => simp at h
  | cons x xs =>
      simp only [List.head?] at h
      injection h with h
      subst h
      exact List.mem_cons_self _ _

theorem sortByKey_head_min {α : Type} (key : α → ℚ) (l : List α) (m : α)
    (h : (sortByKey key l).head? = some m) : ∀ x ∈ l, key m ≤ key x := by
  induction l generalizing m with
  | nil => simp [sortByKey] at h
  | cons a t ih =>
      intro x hx
      rw [sortByKey] at h
      cases hs : sortByKey key t with
      | nil =>
          rw [hs] at h
          simp only [insertByKey, List.head?] at h
          injection h with h
          subst h
          rcases List.mem_cons.mp hx with rfl | hxt
          · exact le_refl _
          · exfalso
            have hmem : x ∈ sortByKey key t := mem_sortByKey.mpr hxt
            rw [hs] at hmem
            simp at hmem
      | cons b bs =>
          rw [hs] at h
          rw [insertByKey] at h
          by_cases hle : key a ≤ key b
          · rw [if_pos hle] at h
            simp only [List.head?] at h
            injection h with h
            subst h
            rcases List.mem_cons.mp hx with rfl | hxt
            · exact le_refl _
            · exact le_trans hle (ih b (by rw [hs]; rfl) x hxt)
          · rw [if_neg hle] at h
            simp only [List.head?] at h
            injection h with h
            subst h
            rcases List.mem_cons.mp hx with rfl | hxt
            · exact le_of_not_le hle
            · exact ih b (by rw [hs]; rfl) x hxt

theorem mem_candidateImages {catalog : List SentinelImage} {g : Nat} {d : ℤ}
    {img : SentinelImage} :
    img ∈ candidateImages catalog g d ↔
      img ∈ catalog ∧ ((d : ℚ) - 3 ≤ img.timeStart ∧ img.timeStart < (d : ℚ) + 3) ∧
        g ∈ img.footprint ∧ img.cloudyPixelPercentage < 10 := by
  simp [candidateImages, List.mem_filter, and_assoc]
  tauto

theorem lookup_filterOut {β : Type} (k q : String) (l : List (String × β))
    (h : q ≠ k) :
    List.lookup q (l.filter (fun kv => decide (kv.1 ≠ k))) = List.lookup q l := by
  induction l with
  | nil => rfl
  | cons kv rest ih =>
      obtain ⟨k1, v1⟩ := kv
      rw [List.filter_cons]
      by_cases hk : k1 = k
      · have hd : (decide (((k1, v1) : String × β).1 ≠ k)) = false := by simp [hk]
        rw [hd]
        have hq : (q == k1) = false := by
          subst hk; exact beq_eq_false_iff_ne.mpr h
        simp only [Bool.false_eq_true, if_false, ih, List.lookup, hq]
      · have hd : (decide (((k1, v1) : String × β).1 ≠ k)) = true := by simp [hk]
        rw [hd]
        simp only [if_true, List.lookup, ih]

theorem getProp_setProp_same (f : Feature) (k : String) (v : Option ℚ) :
    getProp (setProp f k v) k = v := by
  simp [getProp, setProp, List.lookup]

theorem getProp_setProp_ne (f : Feature) (k q : String) (v : Option ℚ)
    (h : q ≠ k) : getProp (setProp f k v) q = getProp f q := by
  have hq : (q == k) = false := beq_eq_false_iff_ne.mpr h
  simp only [getProp, setProp, List.lookup, hq]
  rw [lookup_filterOut k q f.props h]

theorem getProp_setProps_not_mem (f : Feature)
    (kvs : List (String × Option ℚ)) (k : String)
    (h : k ∉ kvs.map Prod.fst) :
    getProp (setProps f kvs) k = getProp f k := by
  induction kvs generalizing f with
  | nil => rfl
  | cons kv rest ih =>
      simp only [List.map_cons, List.mem_cons] at h
      push_neg at h
      rw [setProps, ih _ h.2, getProp_setProp_ne _ _ _ _ h.1]

theorem getProp_setProps_mem (f : Feature) (kvs : List (String × Option ℚ))
    (hnd : (kvs.map Prod.fst).Nodup) :
    ∀ kv ∈ kvs, getProp (setProps f kvs) kv.1 = kv.2 := by
  induction kvs generalizing f with
  | nil => intro kv hkv; simp at hkv
  | cons a rest ih =>
      intro kv hkv
      simp only [List.map_cons, List.nodup_cons] at hnd
      rcases List.mem_cons.mp hkv with rfl | hmem
      · rw [setProps, getProp_setProps_not_mem _ _ _ hnd.1, getProp_setProp_same]
      · exact ih (setProp f a.1 a.2) hnd.2 kv hmem

theorem reduceRegionMean_keys (bands : IndexImage) (geom : List Nat) :
    (reduceRegionMean bands geom).map Prod.fst = bands.map Prod.fst := by
  simp [reduceRegionMean, List.map_map]

theorem getProp_compute_field_stats (bands : IndexImage) (f : Feature)
    (hnd : (bands.map Prod.fst).Nodup) :
    ∀ nb ∈ bands, getProp (compute_field_stats bands f) nb.1 = bandMean nb.2 f.geom := by
  intro nb hnb
  have hkeys : ((reduceRegionMean bands f.geom).map Prod.fst).Nodup := by
    rw [reduceRegionMean_keys]; exact hnd
  have hm : (nb.1, bandMean nb.2 f.geom) ∈ reduceRegionMean bands f.geom := by
    simp only [reduceRegionMean]
    exact List.mem_map_of_mem _ hnb
  exact getProp_setProps_mem f _ hkeys _ hm

theorem updateMask_keys (bands : IndexImage) (mask : Nat → Bool) :
    (updateMask bands mask).map Prod.fst = bands.map Prod.fst := by
  simp [updateMask, List.map_map]

theorem runCounties_trace (w : EEWorld) (state : String) (date : ℤ)
    (cs : List (String × Geometry)) (st : DriverState) :
    (runCounties w state date cs st).2 =
      st.2 ++ cs.map (fun c => (state, c.1, date)) := by
  induction cs generalizing st with
  | nil => simp [runCounties]
  | cons c rest ih => simp [runCounties, ih, List.append_assoc]

theorem runDates_trace (w : EEWorld) (state : String)
    (cs : List (String × Geometry)) (ds : List ℤ) (st : DriverState) :
    (runDates w state cs ds st).2 =
      st.2 ++ ds.flatMap (fun d => cs.map (fun c => (state, c.1, d))) := by
  induction ds generalizing st with
  | nil => simp [runDates]
  | cons d rest ih => simp [runDates, ih, runCounties_trace, List.append_assoc]

theorem runStates_trace (w : EEWorld)
    (countiesOf : String → List (String × Geometry)) (dates : List ℤ)
    (ss : List String) (st : DriverState) :
    (runStates w countiesOf dates ss st).2 =
      st.2 ++ ss.flatMap (fun s => dates.flatMap (fun d =>
        (countiesOf s).map (fun c => (s, c.1, d)))) := by
  induction ss generalizing st with
  | nil => simp [runStates]
  | cons s rest ih => simp [runStates, ih, runDates_trace, List.append_assoc]

theorem get_closest_eq_none {catalog : List SentinelImage} {g : Nat} {d : ℤ}
    (h : (get_closest_sentinel_image catalog g d).1 = none) :
    get_closest_sentinel_image catalog g d = (none, [noImageWarning]) := by
  unfold get_closest_sentinel_image at h ⊢
  cases hs : (sortByKey (fun img => img.timeStart)
      (candidateImages catalog g d)).head? with
  | none => rfl
  | some m => rw [hs] at h; simp at h

theorem get_closest_mem {catalog : List SentinelImage} {g : Nat} {d : ℤ}
    {img : SentinelImage}
    (h : (get_closest_sentinel_image catalog g d).1 = some img) :
    img ∈ candidateImages catalog g d := by
  unfold get_closest_sentinel_image at h
  cases hs : (sortByKey (fun img => img.timeStart)
      (candidateImages catalog g d)).head? with
  | none => rw [hs] at h; simp at h
  | some m =>
      rw [hs] at h
      have h2 : some m = some img := h
      injection h2 with h2
      subst h2
      exact mem_sortByKey.mp (head?_mem hs)

theorem get_closest_min {catalog : List SentinelImage} {g : Nat} {d : ℤ}
    {img : SentinelImage}
    (h : (get_closest_sentinel_image catalog g d).1 = some img) :
    ∀ x ∈ candidateImages catalog g d, img.timeStart ≤ x.timeStart := by
  unfold get_closest_sentinel_image at h
  cases hs : (sortByKey (fun img => img.timeStart)
      (candidateImages catalog g d)).head? with
  | none => rw [hs] at h; simp at h
  | some m =>
      rw [hs] at h
      have h2 : some m = some img := h
      injection h2 with h2
      subst h2
      exact sortByKey_head_min _ _ _ hs

theorem get_fields_for_county_none {w : EEWorld} {cg : Geometry} {date : ℤ}
    (h : (get_closest_sentinel_image w.catalog cg.gid date).1 = none) :
    get_fields_for_county w cg date = (DataFrame.mk [] [], [noImageWarning]) := by
  unfold get_fields_for_county
  rw [get_closest_eq_none h]

theorem get_data_for_fields_none {catalog : List SentinelImage}
    {fb : List Feature} {g : Nat} {date : ℤ}
    (h : (get_closest_sentinel_image catalog g date).1 = none) :
    get_data_for_fields catalog fb g date = (DataFrame.mk [] [], [noImageWarning]) := by
  unfold get_data_for_fields
  rw [get_closest_eq_none h]

theorem ee_to_pandas_rows (fc : List Feature) :
    (ee_to_pandas fc).rows = fc.map featureRow := rfl

theorem mem_validFieldsOf {bands : IndexImage} {fc : List Feature}
    {f : Feature} (h : f ∈ validFieldsOf bands fc) :
    (getProp f "NDVI").isSome = true ∧ ∃ g ∈ fc, f = compute_field_stats bands g := by
  have h1 := List.mem_filter.mp h
  obtain ⟨g, hg, rfl⟩ := List.mem_map.mp h1.1
  exact ⟨h1.2, g, hg, rfl⟩

theorem mem_sampledFields {w : EEWorld} {cg : Geometry} {s : SentinelImage}
    {f : Feature} (h : f ∈ sampledFields w cg s) :
    ∃ g ∈ validFieldsOf (maskedIndices w cg s) (vectorizedFields w cg),
      f = setProp g "random" (some (w.rand2 g.fid)) := by
  unfold sampledFields at h
  have h1 := List.take_subset _ _ h
  have h2 := mem_sortByKey.mp h1
  obtain ⟨g, hg, rfl⟩ := List.mem_map.mp h2
  exact ⟨g, hg, rfl⟩

/-! ## Claims -/

/-- C1 counterexample: the claim says the selection returns the image of
minimal `CLOUDY_PIXEL_PERCENTAGE` over the filtered collection, but on
the catalog `exCatalog` the returned image has cloud percentage 8 while
the filtered collection also offers an image of cloud percentage 2. -/
theorem claim_C1_counterexample :
    ((get_closest_sentinel_image exCatalog 0 0).1.map
      (fun img => img.cloudyPixelPercentage)) = some 8 ∧
    (2 : ℚ) ∈ (candidateImages exCatalog 0 0).map
      (fun img => img.cloudyPixelPercentage) ∧
    ¬ ((8 : ℚ) ≤ 2) := by
  refine ⟨by with_unfolding_all rfl,
    of_decide_eq_true (by with_unfolding_all rfl), by norm_num⟩

/-- C1 (amended): for every region geometry and target date,
`get_closest_sentinel_image` returns the EARLIEST-acquired image
(minimal `system:time_start`) among the images available in the window
`[date - 3, date + 3)` that intersect the region and have
`CLOUDY_PIXEL_PERCENTAGE < 10` — not the least cloudy one. -/
theorem claim_C1_earliest_image (catalog : List SentinelImage) (g : Nat)
    (d : ℤ) (img : SentinelImage)
    (h : (get_closest_sentinel_image catalog g d).1 = some img) :
    img ∈ catalog ∧ ((d : ℚ) - 3 ≤ img.timeStart ∧ img.timeStart < (d : ℚ) + 3) ∧
      g ∈ img.footprint ∧ img.cloudyPixelPercentage < 10 ∧
      ∀ other ∈ catalog,
        (d : ℚ) - 3 ≤ other.timeStart → other.timeStart < (d : ℚ) + 3 →
          g ∈ other.footprint → other.cloudyPixelPercentage < 10 →
          img.timeStart ≤ other.timeStart := by
  have hc := mem_candidateImages.mp (get_closest_mem h)
  refine ⟨hc.1, hc.2.1, hc.2.2.1, hc.2.2.2, ?_⟩
  intro other hocat h1 h2 h3 h4
  exact get_closest_min h other (mem_candidateImages.mpr ⟨hocat, ⟨h1, h2⟩, h3, h4⟩)

theorem claim_C1_earliest_image_witness :
    imgEarlyCloudy ∈ exCatalog ∧
      (((0 : ℤ) : ℚ) - 3 ≤ imgEarlyCloudy.timeStart ∧
        imgEarlyCloudy.timeStart < ((0 : ℤ) : ℚ) + 3) ∧
      (0 : Nat) ∈ imgEarlyCloudy.footprint ∧
      imgEarlyCloudy.cloudyPixelPercentage < 10 ∧
      ∀ other ∈ exCatalog,
        ((0 : ℤ) : ℚ) - 3 ≤ other.timeStart → other.timeStart < ((0 : ℤ) : ℚ) + 3 →
          (0 : Nat) ∈ other.footprint → other.cloudyPixelPercentage < 10 →
          imgEarlyCloudy.timeStart ≤ other.timeStart :=
  claim_C1_earliest_image exCatalog 0 0 imgEarlyCloudy (by with_unfolding_all rfl)

/-- C2 (confirmed): `calculate_indices` produces exactly the five bands
NDVI, EVI, GNDVI, NDWI, SAVI in that order, and on every unmasked pixel
each equals its fixed band-arithmetic formula. -/
theorem claim_C2_five_index_formulas (s : SentinelImage) :
    (calculate_indices s).map Prod.fst = ["NDVI", "EVI", "GNDVI", "NDWI", "SAVI"] ∧
    ∀ px p, s.data px = some p →
      bandPx (calculate_indices s) "NDVI" px =
        some ((p.b8 - p.b4) / (p.b8 + p.b4)) ∧
      bandPx (calculate_indices s) "EVI" px =
        some (2.5 * ((p.b8 - p.b4) / (p.b8 + 6 * p.b4 - 7.5 * p.b2 + 1))) ∧
      bandPx (calculate_indices s) "GNDVI" px =
        some ((p.b8 - p.b3) / (p.b8 + p.b3)) ∧
      bandPx (calculate_indices s) "NDWI" px =
        some ((p.b8 - p.b11) / (p.b8 + p.b11)) ∧
      bandPx (calculate_indices s) "SAVI" px =
        some (((p.b8 - p.b4) / (p.b8 + p.b4 + 0.5)) * 1.5) := by
  refine ⟨rfl, fun px p h => ?_⟩
  refine ⟨?_, ?_, ?_, ?_, ?_⟩ <;>
    simp [bandPx, bandAt, calculate_indices, List.lookup, normalizedDifference,
      selectBand, h, bandValue]

theorem claim_C2_five_index_formulas_witness :
    exImage.data 0 = some exPixel ∧
    bandPx (calculate_indices exImage) "NDVI" 0 =
      some ((exPixel.b8 - exPixel.b4) / (exPixel.b8 + exPixel.b4)) :=
  ⟨rfl, ((claim_C2_five_index_formulas exImage).2 0 exPixel rfl).1⟩

/-- C3 (confirmed): `append_to_csv` writes header plus rows when no file
exists, and appends exactly the rows after the unchanged existing
contents when a file exists. -/
theorem claim_C3_append_semantics (df : DataFrame)
    (file : Option (List (List String))) :
    (file = none → append_to_csv df file = some (df.header :: df.rows)) ∧
    ∀ c, file = some c → append_to_csv df file = some (c ++ df.rows) := by
  constructor
  · intro h; subst h; rfl
  · intro c h; subst h; rfl

theorem claim_C3_append_semantics_witness :
    append_to_csv exDF none = some (exDF.header :: exDF.rows) :=
  (claim_C3_append_semantics exDF none).1 rfl

/-- C4 counterexample: appending the same one-row `DataFrame` twice does
not leave the file as after the first call, refuting idempotence. -/
theorem claim_C4_counterexample :
    append_to_csv exDF (append_to_csv exDF none) ≠ append_to_csv exDF none := by
  decide

/-- C4 (amended): the CSV append is NOT idempotent: a second call with
the same `DataFrame` appends the rows once more (without a header) after
the state left by the first call, so whenever the `DataFrame` has at
least one row the file after the second call differs from the file after
the first. -/
theorem claim_C4_second_append_appends_again (df : DataFrame)
    (file : Option (List (List String))) (c : List (List String))
    (h : append_to_csv df file = some c) :
    append_to_csv df (append_to_csv df file) = some (c ++ df.rows) ∧
    (df.rows ≠ [] →
      append_to_csv df (append_to_csv df file) ≠ append_to_csv df file) := by
  rw [h]
  refine ⟨rfl, fun hne heq => ?_⟩
  have h2 : c ++ df.rows = c := Option.some.inj heq
  have h3 := congrArg List.length h2
  simp only [List.length_append] at h3
  have h4 : df.rows.length = 0 := by omega
  exact hne (List.length_eq_zero.mp h4)

theorem claim_C4_second_append_appends_again_witness :
    append_to_csv exDF none = some (exDF.header :: exDF.rows) ∧
    append_to_csv exDF (append_to_csv exDF none) =
      some ((exDF.header :: exDF.rows) ++ exDF.rows) :=
  ⟨rfl, (claim_C4_second_append_appends_again exDF none
    (exDF.header :: exDF.rows) rfl).1⟩

/-- C5 (confirmed): when no Sentinel-2 image is available in the search
window, the per-region retrieval returns an empty `DataFrame` after
logging the warning, and the driver county loop proceeds with the
remaining iterations, the file untouched. -/
theorem claim_C5_missing_image_graceful :
    (∀ (w : EEWorld) (cg : Geometry) (date : ℤ),
      (get_closest_sentinel_image w.catalog cg.gid date).1 = none →
        (get_fields_for_county w cg date).1 = DataFrame.mk [] [] ∧
        noImageWarning ∈ (get_fields_for_county w cg date).2) ∧
    (∀ (catalog : List SentinelImage) (fb : List Feature) (g : Nat) (date : ℤ),
      (get_closest_sentinel_image catalog g date).1 = none →
        (get_data_for_fields catalog fb g date).1 = DataFrame.mk [] [] ∧
        noImageWarning ∈ (get_data_for_fields catalog fb g date).2) ∧
    (∀ (w : EEWorld) (state county : String) (cg : Geometry) (date : ℤ)
        (rest : List (String × Geometry)) (st : DriverState),
      (get_closest_sentinel_image w.catalog cg.gid date).1 = none →
        runCounties w state date ((county, cg) :: rest) st =
          runCounties w state date rest (st.1, st.2 ++ [(state, county, date)])) := by
  refine ⟨?_, ?_, ?_⟩
  · intro w cg date h
    rw [get_fields_for_county_none h]
    exact ⟨rfl, List.mem_singleton_self _⟩
  · intro catalog fb g date h
    rw [get_data_for_fields_none h]
    exact ⟨rfl, List.mem_singleton_self _⟩
  · intro w state county cg date rest st h
    have hstep : retrieverStep w state county cg date st.1 = st.1 := by
      simp [retrieverStep, get_fields_for_county_none h]
    have heq : runCounties w state date ((county, cg) :: rest) st =
        runCounties w state date rest
          (retrieverStep w state county cg date st.1,
            st.2 ++ [(state, county, date)]) := rfl
    rw [heq, hstep]

theorem claim_C5_missing_image_graceful_witness :
    (get_closest_sentinel_image exWorldEmpty.catalog exGeom.gid 0).1 = none ∧
    (get_fields_for_county exWorldEmpty exGeom 0).1 = DataFrame.mk [] [] ∧
    noImageWarning ∈ (get_fields_for_county exWorldEmpty exGeom 0).2 :=
  ⟨rfl, claim_C5_missing_image_graceful.1 exWorldEmpty exGeom 0 rfl⟩

/-- C6 (confirmed): `compute_field_stats` sets, for every band of the
index image it is given, the mean of that band over the geometry of the
field (null when no unmasked pixel lies inside), the five band names are
distinct in both scripts, and every row of the tables returned by
`get_data_for_fields` and `get_fields_for_county` comes from a field
whose NDVI value is non-null. -/
theorem claim_C6_mean_per_band_and_notnull :
    (∀ (bands : IndexImage) (f : Feature), (bands.map Prod.fst).Nodup →
      ∀ nb ∈ bands,
        getProp (compute_field_stats bands f) nb.1 = bandMean nb.2 f.geom) ∧
    (∀ s : SentinelImage, (∀ (w : EEWorld) (cg : Geometry),
      ((maskedIndices w cg s).map Prod.fst).Nodup) ∧
      ((calculate_indices s).map Prod.fst).Nodup) ∧
    (∀ (catalog : List SentinelImage) (fb : List Feature) (g : Nat) (date : ℤ),
      ∀ row ∈ (get_data_for_fields catalog fb g date).1.rows,
        ∃ f, (getProp f "NDVI").isSome = true ∧ row = featureRow f) ∧
    (∀ (w : EEWorld) (cg : Geometry) (date : ℤ),
      ∀ row ∈ (get_fields_for_county w cg date).1.rows,
        ∃ f, (getProp f "NDVI").isSome = true ∧ row = featureRow f) := by
  refine ⟨fun bands f hnd => getProp_compute_field_stats bands f hnd, ?_, ?_, ?_⟩
  · intro s
    have h2 : (calculate_indices s).map Prod.fst =
        ["NDVI", "EVI", "GNDVI", "NDWI", "SAVI"] := rfl
    constructor
    · intro w cg
      have h1 : (maskedIndices w cg s).map Prod.fst =
          (calculate_indices s).map Prod.fst := updateMask_keys _ _
      rw [h1, h2]
      decide
    · rw [h2]
      decide
  · intro catalog fb g date row hrow
    unfold get_data_for_fields at hrow
    cases hc : get_closest_sentinel_image catalog g date with
    | mk o log =>
      rw [hc] at hrow
      cases o with
      | none => simp at hrow
      | some s =>
          rw [ee_to_pandas_rows] at hrow
          obtain ⟨f, hf, rfl⟩ := List.mem_map.mp hrow
          exact ⟨f, (mem_validFieldsOf hf).1, rfl⟩
  · intro w cg date row hrow
    unfold get_fields_for_county at hrow
    cases hc : get_closest_sentinel_image w.catalog cg.gid date with
    | mk o log =>
      rw [hc] at hrow
      cases o with
      | none => simp at hrow
      | some s =>
          rw [ee_to_pandas_rows] at hrow
          obtain ⟨f, hf, rfl⟩ := List.mem_map.mp hrow
          obtain ⟨g2, hg2, rfl⟩ := mem_sampledFields hf
          refine ⟨setProp g2 "random" (some (w.rand2 g2.fid)), ?_, rfl⟩
          rw [getProp_setProp_ne _ _ _ _ (by decide)]
          exact (mem_validFieldsOf hg2).1

theorem claim_C6_mean_per_band_and_notnull_witness :
    (exBand.map Prod.fst).Nodup ∧
    getProp (compute_field_stats exBand exFeature0) "NDVI" =
      bandMean (fun _ => none) [] :=
  ⟨by decide, claim_C6_mean_per_band_and_notnull.1 exBand exFeature0 (by decide)
    ("NDVI", fun _ => none) (by simp [exBand])⟩

/-- C7 counterexample: with one state, two counties and two dates, the
trace of iterations performed by `main` of `ee_data_retriever.py`
differs from the claimed states → counties → dates order. -/
theorem claim_C7_counterexample :
    (mainRetriever exWorldEmpty exCounties ["Iowa"] [0, 7] none).2 ≠
      claimedIterationOrder exCounties ["Iowa"] [0, 7] := by
  decide

/-- C7 (amended): the retriever driver nests its loops in the order
states → weekly dates → counties: for each state, for each date, one
retrieval-and-append step per county of the state, in list order. -/
theorem claim_C7_states_dates_counties (w : EEWorld)
    (countiesOf : String → List (String × Geometry)) (statesL : List String)
    (dates : List ℤ) (file0 : Option (List (List String))) :
    (mainRetriever w countiesOf statesL dates file0).2 =
      codeIterationOrder countiesOf statesL dates := by
  simp [mainRetriever, codeIterationOrder, runStates_trace]

/-- C8 (confirmed): the county field table has at most 200 rows, and its
entries are drawn from the valid vectorized fields by sorting on the
freshly added `random` column and taking the first 200. -/
theorem claim_C8_bounded_sample :
    (∀ (w : EEWorld) (cg : Geometry) (date : ℤ),
      (get_fields_for_county w cg date).1.rows.length ≤ 200) ∧
    (∀ (w : EEWorld) (cg : Geometry) (s : SentinelImage),
      sampledFields w cg s =
        (sortByKey (fun f => (getProp f "random").getD 0)
          ((validFieldsOf (maskedIndices w cg s) (vectorizedFields w cg)).map
            (fun f => setProp f "random" (some (w.rand2 f.fid))))).take 200) ∧
    (∀ (w : EEWorld) (cg : Geometry) (s : SentinelImage),
      ∀ f ∈ sampledFields w cg s,
        ∃ g ∈ validFieldsOf (maskedIndices w cg s) (vectorizedFields w cg),
          f = setProp g "random" (some (w.rand2 g.fid))) := by
  refine ⟨?_, fun w cg s => rfl, fun w cg s f hf => mem_sampledFields hf⟩
  intro w cg date
  unfold get_fields_for_county
  cases hc : get_closest_sentinel_image w.catalog cg.gid date with
  | mk o log =>
    cases o with
    | none => simp
    | some s =>
        show (ee_to_pandas (sampledFields w cg s)).rows.length ≤ 200
        rw [ee_to_pandas_rows, List.length_map]
        unfold sampledFields
        rw [List.length_take]
        exact min_le_left _ _

theorem claim_C8_bounded_sample_witness :
    (sampledFields exWorld exGeom exImage).headD exFeature0 ∈
      sampledFields exWorld exGeom exImage ∧
    ∃ g ∈ validFieldsOf (maskedIndices exWorld exGeom exImage)
        (vectorizedFields exWorld exGeom),
      (sampledFields exWorld exGeom exImage).headD exFeature0 =
        setProp g "random" (some (exWorld.rand2 g.fid)) :=
  ⟨of_decide_eq_true (by with_unfolding_all rfl),
   claim_C8_bounded_sample.2.2 exWorld exGeom exImage _
     (of_decide_eq_true (by with_unfolding_all rfl))⟩

/-- C9 (confirmed): the selected image always has
`CLOUDY_PIXEL_PERCENTAGE < 10`, and indeed every image of the filtered
candidate collection passes the strict less-than-10 threshold. -/
theorem claim_C9_cloud_threshold (catalog : List SentinelImage) (g : Nat)
    (d : ℤ) (img : SentinelImage)
    (h : (get_closest_sentinel_image catalog g d).1 = some img) :
    img.cloudyPixelPercentage < 10 ∧
    ∀ c ∈ candidateImages catalog g d, c.cloudyPixelPercentage < 10 := by
  constructor
  · exact (mem_candidateImages.mp (get_closest_mem h)).2.2.2
  · intro c hc
    exact (mem_candidateImages.mp hc).2.2.2

theorem claim_C9_cloud_threshold_witness :
    imgLateClear.cloudyPixelPercentage < 10 ∧
    ∀ c ∈ candidateImages [imgLateClear] 0 0, c.cloudyPixelPercentage < 10 :=
  claim_C9_cloud_threshold [imgLateClear] 0 0 imgLateClear
    (by with_unfolding_all rfl)

/-- C10 (confirmed): a driver iteration whose retrieved `DataFrame` is
empty performs no write: the CSV file state (existence and contents) is
exactly the same after the iteration, in both scripts. -/
theorem claim_C10_empty_frame_no_write :
    (∀ (w : EEWorld) (state county : String) (cg : Geometry) (date : ℤ)
        (file : Option (List (List String))),
      (get_fields_for_county w cg date).1.rows = [] →
        retrieverStep w state county cg date file = file) ∧
    (∀ (catalog : List SentinelImage) (fb : List Feature) (g : Nat) (date : ℤ)
        (file : Option (List (List String))),
      (get_data_for_fields catalog fb g date).1.rows = [] →
        getterStep catalog fb g date file = file) := by
  constructor
  · intro w state county cg date file h
    simp [retrieverStep, h]
  · intro catalog fb g date file h
    simp [getterStep, h]

theorem claim_C10_empty_frame_no_write_witness :
    (get_fields_for_county exWorldEmpty exGeom 0).1.rows = [] ∧
    retrieverStep exWorldEmpty "Iowa" "Adair" exGeom 0 (some [["x"]]) =
      some [["x"]] :=
  ⟨rfl, claim_C10_empty_frame_no_write.1 exWorldEmpty "Iowa" "Adair" exGeom 0
    (some [["x"]]) rfl⟩
